import Mathlib

/-!
Verification development for the EuroLanka itinerary backend.

The JavaScript sources are shallowly embedded:
  * JS objects become structures; optional / possibly-absent fields become `Option`.
  * JS string truthiness (`""` and `undefined` are falsy) is the `truthy` predicate below.
  * Calendar dates are modelled as `Int` day indices: `new Date(d); d.setDate(d.getDate()+n)`
    normalizes day-of-month overflow, so it adds exactly `n` days to the date value.
    The locale rendering `toLocaleDateString` is an external library call and is
    passed in as an abstract rendering function `fmt : Int → String`.
  * Filesystem and network side effects are recorded as explicit effect lists;
    remote collaborators (screenshot service, template renderer, conversion
    service) are oracles passed as parameters.
  * Filesystem directory prefixes (`__dirname`, `path.join`) are elided from the
    modelled paths: only the per-itinerary file names matter to the claims.
-/

/-- JS truthiness for a string value: `""` is falsy, everything else truthy. -/
def truthyStr (s : String) : Bool := s ≠ ""

/-- JS truthiness for a possibly-absent string field (`undefined` is falsy). -/
def truthy : Option String → Bool
  | none => false
  | some s => truthyStr s

/-- The `meals` object of a daily plan (engine.js line 242): absent flags are falsy. -/
structure Meals where
  breakfast : Bool
  lunch : Bool
  dinner : Bool
deriving DecidableEq, Repr

/-- One daily plan of the itinerary payload (spec §3 DailyPlan; engine.js 227-272). -/
structure DailyPlan where
  place : String
  activity : Option String
  customActivity : Option String
  meals : Option Meals
  overnightStay : Bool
  hotel : Option String
  customHotel : Option String
  description : Option String
deriving DecidableEq, Repr

/-- The embedded trip-data payload of a stored itinerary (spec §3 Itinerary payload).
`route` and `dailyPlans` are `Option` because `processItinerary` validates their
presence (`engine.js` 32-38): a missing or non-array `dailyPlans` is `none`. -/
structure ItineraryData where
  id : Option String
  userId : Option String
  route : Option String
  touristName : String
  numberOfTravelers : Int
  tourStartDate : Int
  numberOfDays : Int
  coverImage : Option String
  customImage : Option String
  dailyPlans : Option (List DailyPlan)
deriving DecidableEq, Repr

/-- A stored itinerary record (server part_000 lines 293-300). Field order matters
for the `Object.keys(itinerary)[0]` fallback in engine.js line 41: `id` is first. -/
structure StoredItinerary where
  id : Option String
  userId : Option String
  timestamp : Int
  data : Option ItineraryData
deriving DecidableEq, Repr

/-- Company info nested in a user record (part_000 lines 230-237). -/
structure CompanyInfo where
  companyName : String
  address : String
  phone : String
  email : String
  website : String
  logo : String
deriving DecidableEq, Repr

/-- A user record, reduced to the fields `getCompanyInfo` consults (engine.js 144-146). -/
structure User where
  id : String
  companyInfo : Option CompanyInfo
deriving DecidableEq, Repr

/-- The itineraries store: a JSON document mapping user id → (itinerary id → record),
kept as association lists to preserve JS object key insertion order. -/
abbrev ItinStore := List (String × List (String × StoredItinerary))

/-- JS object property access `obj[key]` over the association-list model. -/
def lookupKey {α : Type} (k : String) : List (String × α) → Option α
  | [] => none
  | (k₂, v) :: rest => if k₂ = k then some v else lookupKey k rest

/-! ## Route encoding (engine.js `generateRouteScreenshot`, lines 159-174) -/

/-- One attempt of the regex `/\s*-\s*/` at the head of the character list:
greedily skip whitespace, require a hyphen, greedily skip trailing whitespace.
Returns the remaining input on a match. -/
def matchHyphenRun (cs : List Char) : Option (List Char) :=
  match cs.dropWhile Char.isWhitespace with
  | '-' :: rest => some (rest.dropWhile Char.isWhitespace)
  | _ => none

/-- The global regex replace `route.replace(/\s*-\s*/g, "-")` (engine.js line 166)
on a fuel budget so that the recursion is structural (the kernel can then evaluate
concrete routes): scan left to right; at each position either collapse a
whitespace-hyphen-whitespace run to a single hyphen or keep the character.
Each step consumes at least one character, so `fuel = cs.length` is exact. -/
def collapseHyphensFuel : Nat → List Char → List Char
  | 0, _ => []
  | _ + 1, [] => []
  | fuel + 1, c :: rest =>
    match matchHyphenRun (c :: rest) with
    | some rest₂ => '-' :: collapseHyphensFuel fuel rest₂
    | none => c :: collapseHyphensFuel fuel rest

/-- The replace `route.replace(/\s*-\s*/g, "-")` on character lists. -/
def collapseHyphens (cs : List Char) : List Char := collapseHyphensFuel cs.length cs

/-- JS `String.prototype.split` with a single-character separator
(`cleanedRoute.split("-")`, engine.js line 169). -/
def splitOnCharJs (sep : Char) : List Char → List (List Char)
  | [] => [[]]
  | c :: rest =>
    let r := splitOnCharJs sep rest
    if c = sep then [] :: r
    else
      match r with
      | [] => [[c]]
      | g :: gs => (c :: g) :: gs

/-- The replace `route.replace(/\s*-\s*/g, "-")` at the `String` level (engine.js line 166). -/
def cleanedRoute (route : String) : String := ⟨collapseHyphens route.data⟩

/-- The expression `cleanedRoute.split("-").filter(Boolean)` (engine.js line 169). -/
def placesOf (route : String) : List String :=
  ((splitOnCharJs '-' (cleanedRoute route).data).map (fun g => String.mk g)).filter
    (fun p => p ≠ "")

inductive ConvError
  | inputNotFound
  | outputNotPdf
  | uploadFailed
  | startFailed
  | remoteFailed
  | timeout
deriving DecidableEq, Repr

/-- Error taxonomy of the pipeline (spec §7); each constructor corresponds to one
`throw` site in engine.js. -/
inductive PipelineError
  | notFound (itineraryId : String)
  | invalidRoute (itineraryId : String)
  | invalidDailyPlans (itineraryId : String)
  | noUserId (itineraryId : String)
  | noCompanyInfo (userId : String)
  | invalidRouteFormat
  | routeTooFewPlaces
  | screenshotFailed
  | templateNotFound
  | renderFailed
  | conversionFailed (e : ConvError)
deriving DecidableEq, Repr

instance {ε α : Type} [DecidableEq ε] [DecidableEq α] : DecidableEq (Except ε α) := fun x y =>
  match x, y with
  | .ok a, .ok b =>
    if h : a = b then .isTrue (by rw [h]) else .isFalse (by simp [h])
  | .error e, .error f =>
    if h : e = f then .isTrue (by rw [h]) else .isFalse (by simp [h])
  | .ok _, .error _ => .isFalse (by simp)
  | .error _, .ok _ => .isFalse (by simp)

/-- The validation-and-encoding part of `generateRouteScreenshot`
(engine.js lines 161-174): reject a falsy route, clean it, split into places,
require at least two, and build the `&start;...&end;...` mini-language string. -/
def encodeRoute (route : String) : Except PipelineError String :=
  if route = "" then .error .invalidRouteFormat
  else
    let places := placesOf route
    if places.length < 2 then .error .routeTooFewPlaces
    else
      match places with
      | [] => .error .routeTooFewPlaces
      | [_] => .error .routeTooFewPlaces
      | p :: ps =>
        .ok ("&start;" ++ p ++ "&" ++ String.intercalate "&" ps.dropLast
              ++ "&end;" ++ ps.getLastD "")

/-! ## Document data formatting (engine.js `formatItineraryData`, lines 198-324) -/

/-- JS `Array.prototype.map((x, index) => ...)` starting at a given index. -/
def mapIdxFrom {α β : Type} (f : Nat → α → β) : Nat → List α → List β
  | _, [] => []
  | i, a :: as => f i a :: mapIdxFrom f (i + 1) as

/-- The conditional with `day.hotel` equal to "custom" selecting `day.customHotel`, anything else selecting `day.hotel` — the resolved hotel
name of a day (engine.js lines 254 and 271). -/
def resolvedHotel (day : DailyPlan) : Option String :=
  if day.hotel = some "custom" then day.customHotel else day.hotel

/-- Overnight-stay text of a per-day detail block (engine.js lines 252-256). -/
def overnightText (day : DailyPlan) : String :=
  if day.overnightStay then
    if truthy (resolvedHotel day) then
      "Overnight Stay: " ++ (resolvedHotel day).getD ""
    else "Overnight stay"
  else "No overnight stay"

/-- Meal-flag string `(B/L/D)` of a daily plan (engine.js lines 242-249);
`day.meals || {}` makes a missing meals object behave as all-absent. -/
def foodSupply (meals : Option Meals) : String :=
  let m := meals.getD { breakfast := false, lunch := false, dinner := false }
  "(" ++ (if m.breakfast then "B" else "-")
      ++ "/" ++ (if m.lunch then "L" else "-")
      ++ "/" ++ (if m.dinner then "D" else "-") ++ ")"

/-- A row of the itinerary summary table `itbTable` (engine.js lines 227-231). -/
structure ItbRow where
  dayNumber : String
  place : String
  activity : Option String
deriving DecidableEq, Repr

/-- A per-day detail block of `iDetail` (engine.js lines 258-263). -/
structure IDetailEntry where
  iDetailTitle : String
  iDesc : String
  isOvernightStay : String
  foodSupply : String
deriving DecidableEq, Repr

/-- A row of the accommodation table `aTable` (engine.js lines 269-272). -/
structure ATableRow where
  aCity : String
  accomodation : Option String
deriving DecidableEq, Repr

/-- The object returned by `formatItineraryData` (engine.js lines 282-323);
the `_images` path block is reduced to the three resolved path strings. -/
structure FormattedData where
  address : String
  phone : String
  email : String
  web : String
  totalDays : String
  totalNights : String
  touristName : String
  noOfTravellers : String
  travelDatePeriod : String
  Route : String
  itbTable : List ItbRow
  iDetail : List IDetailEntry
  aTable : List ATableRow
  departureDate : String
  logo : String
  templateCoverImg : String
  mapSS : String
  companyLogoPath : String
  coverImagePath : String
  routeMapPath : String
deriving DecidableEq, Repr

/-- Function `formatItineraryData` (engine.js lines 198-324). `fmt` stands for the external
locale renderer `formatDateForDisplay`/`toLocaleDateString`; dates are `Int` day
indices, so `endDate.setDate(startDate.getDate() + numberOfDays - 1)` is
`startDate + numberOfDays - 1` and the per-day date is `startDate + index`.
It is only called after `processItinerary` validated that `dailyPlans` is
present, so the `getD []` default is never used by the pipeline. -/
def formatItineraryData (fmt : Int → String) (itinerary : ItineraryData)
    (companyInfo : CompanyInfo) (screenshotPath : String) : FormattedData :=
  let dailyPlans := itinerary.dailyPlans.getD []
  let totalNights := itinerary.numberOfDays - 1
  let startDate := itinerary.tourStartDate
  let endDate := startDate + itinerary.numberOfDays - 1
  let travelDatePeriod := fmt startDate ++ " – " ++ fmt endDate
  let noOfTravellers :=
    if itinerary.numberOfTravelers > 1 then toString itinerary.numberOfTravelers else "1"
  let itbTable := mapIdxFrom (fun index day =>
    { dayNumber := "Day " ++ toString (index + 1)
      place := day.place
      activity :=
        if day.activity = some "custom" ∨ truthy day.activity = false then
          day.customActivity
        else day.activity : ItbRow }) 0 dailyPlans
  let iDetail := mapIdxFrom (fun index day =>
    let currentDate := startDate + (index : Int)
    let displayDate := fmt currentDate
    { iDetailTitle :=
        "Day " ++ toString (index + 1) ++ " – " ++ day.place ++ " (" ++ displayDate ++ ")"
      iDesc := if truthy day.description then day.description.getD "" else "Activities for the day"
      isOvernightStay := overnightText day
      foodSupply := foodSupply day.meals : IDetailEntry }) 0 dailyPlans
  let aTable := (dailyPlans.filter
      (fun day => day.overnightStay && (truthy day.hotel || truthy day.customHotel))).map
    (fun day => { aCity := day.place, accomodation := resolvedHotel day : ATableRow })
  let coverImagePath :=
    if itinerary.coverImage = some "custom" ∧ truthy itinerary.customImage then
      (itinerary.customImage).getD ""
    else "public/public/default-cover.jpg"
  { address := companyInfo.address
    phone := companyInfo.phone
    email := companyInfo.email
    web := companyInfo.website
    totalDays := toString itinerary.numberOfDays
    totalNights := toString totalNights
    touristName := itinerary.touristName
    noOfTravellers := noOfTravellers
    travelDatePeriod := travelDatePeriod
    Route := itinerary.route.getD ""
    itbTable := itbTable
    iDetail := iDetail
    aTable := aTable
    departureDate := fmt endDate
    logo := "companyLogo"
    templateCoverImg := "coverImage"
    mapSS := "routeMap"
    companyLogoPath := companyInfo.logo
    coverImagePath := coverImagePath
    routeMapPath := screenshotPath }

/-! ## Payload validation (engine.js `processItinerary`, lines 32-38) -/

/-- The validation step of `processItinerary` (engine.js lines 32-38): a falsy or
non-string `route` fails, a missing or non-array `dailyPlans` fails; any array
(including the empty array) passes the `dailyPlans` check. -/
def validateItineraryData (itineraryId : String) (itineraryData : ItineraryData) :
    Except PipelineError Unit :=
  if truthy itineraryData.route = false then .error (.invalidRoute itineraryId)
  else if itineraryData.dailyPlans.isNone then .error (.invalidDailyPlans itineraryId)
  else .ok ()

/-! ## Concrete fixtures used by witnesses and counterexamples -/

/-- A stand-in for the external locale date renderer in concrete instances. -/
def fmtStub : Int → String := fun d => toString d

def ciStub : CompanyInfo :=
  { companyName := "EuroLanka", address := "Colombo", phone := "011",
    email := "hello@eurolanka.lk", website := "eurolanka.lk", logo := "logo.png" }

def basePayload : ItineraryData :=
  { id := some "itin1", userId := some "u1", route := some "Colombo - Matara",
    touristName := "Tina", numberOfTravelers := 2, tourStartDate := 100,
    numberOfDays := 3, coverImage := none, customImage := none, dailyPlans := none }

def dayA : DailyPlan :=
  { place := "Colombo", activity := some "City tour", customActivity := none,
    meals := some { breakfast := true, lunch := false, dinner := true },
    overnightStay := true, hotel := some "Cinnamon", customHotel := none,
    description := some "Arrival" }

def dayB : DailyPlan :=
  { place := "Matara", activity := none, customActivity := some "Beach",
    meals := none, overnightStay := false, hotel := none, customHotel := none,
    description := none }

def plansTwo : List DailyPlan := [dayA, dayB]

def itinTwoDays : ItineraryData :=
  { basePayload with dailyPlans := some plansTwo, numberOfDays := 2 }

def itinOneDay : ItineraryData :=
  { basePayload with dailyPlans := some [dayA], numberOfDays := 1 }

/-- A day with the overnight flag set, `hotel` set to "custom" and no custom text:
its resolved hotel name is empty. -/
def dayNoHotelName : DailyPlan :=
  { place := "Kandy", activity := none, customActivity := none, meals := none,
    overnightStay := true, hotel := some "custom", customHotel := none,
    description := none }

def itinNoHotelName : ItineraryData :=
  { basePayload with dailyPlans := some [dayNoHotelName] }

/-! ## Claim C9 — itinerary listing endpoint (server part_000, lines 364-397) -/

/-- The ordering induced by the JS comparator
`(a, b) => new Date(b.timestamp) - new Date(a.timestamp)` (part_000 line 380):
`a` may come before `b` exactly when `b`'s timestamp is at most `a`'s —
newest first. Timestamps are the parsed millisecond values, modelled as `Int`. -/
def tsGE (a b : StoredItinerary) : Prop := b.timestamp ≤ a.timestamp

instance : DecidableRel tsGE := fun a b => Int.decLe _ _

instance : IsTotal StoredItinerary tsGE :=
  ⟨fun a b => le_total b.timestamp a.timestamp⟩

instance : IsTrans StoredItinerary tsGE :=
  ⟨fun _ _ _ hab hbc => le_trans hbc hab⟩

/-- Core of the `GET /api/itineraries` handler (part_000 lines 374-388): take the
user's itinerary bucket (or `{}` when absent), collect its values in key order,
and sort with the timestamp comparator. `Array.prototype.sort` with a consistent
comparator returns a list sorted by it; it is modelled by insertion sort. -/
def getUserItineraries (store : ItinStore) (userId : String) : List StoredItinerary :=
  let userItineraries := (lookupKey userId store).getD []
  List.insertionSort tsGE (userItineraries.map Prod.snd)

/-! ## Claim C10 — itinerary lookup and user-id resolution -/

/-- The match condition of the linear scan in `getItineraryById`
(engine.js lines 113-116): the itinerary key equals the target id, or the
record's `id` field does, or the nested payload's `id` field does. -/
def itinMatches (itineraryId itinKey : String) (record : StoredItinerary) : Bool :=
  itinKey == itineraryId || record.id == some itineraryId ||
    (match record.data with
     | some d => d.id == some itineraryId
     | none => false)

/-- Inner loop of `getItineraryById` over one user's bucket (engine.js 112-123):
on a match, return the record spread with `userId` overridden by the bucket key. -/
def findItinInUser (itineraryId userKey : String) :
    List (String × StoredItinerary) → Option StoredItinerary
  | [] => none
  | (itinKey, record) :: rest =>
    if itinMatches itineraryId itinKey record then
      some { record with userId := some userKey }
    else findItinInUser itineraryId userKey rest

/-- Function `getItineraryById` (engine.js lines 101-131): linear scan across all users'
buckets in key order; `none` when no record matches. -/
def getItineraryById : ItinStore → String → Option StoredItinerary
  | [], _ => none
  | (userKey, itins) :: rest, itineraryId =>
    match findItinInUser itineraryId userKey itins with
    | some r => some r
    | none => getItineraryById rest itineraryId

/-- The expression `itinerary.data || itinerary` (engine.js line 29): when the record carries no
`data` payload the record itself is used as the payload; only the fields the
pipeline then consults (`id`, `userId`, `route`, `dailyPlans`) are represented,
the rest are absent on a bare record. -/
def itineraryDataOf (itinerary : StoredItinerary) : ItineraryData :=
  match itinerary.data with
  | some d => d
  | none =>
    { id := itinerary.id, userId := itinerary.userId, route := none,
      touristName := "", numberOfTravelers := 0, tourStartDate := 0,
      numberOfDays := 0, coverImage := none, customImage := none, dailyPlans := none }

/-- Which alternative of the user-id chain
`itinerary.userId || itineraryData.userId || Object.keys(itinerary)[0]?.split("_")[1]`
(engine.js line 41) produces the value. -/
inductive UserIdSource
  | recordField
  | payloadField
  | keyFallback
deriving DecidableEq, Repr

def resolveUserIdSource (itinerary : StoredItinerary) : UserIdSource :=
  if truthy itinerary.userId then .recordField
  else if truthy (itineraryDataOf itinerary).userId then .payloadField
  else .keyFallback

/-- The key-naming fallback `Object.keys(itinerary)[0]?.split("_")[1]`: the first
own key of the modelled record is always "id", which has no underscore-separated
second part, so the fallback produces no value. -/
def keyFallbackValue (_itinerary : StoredItinerary) : Option String :=
  ("id".splitOn "_").get? 1

/-- The resolved user id of engine.js line 41. -/
def resolveUserId (itinerary : StoredItinerary) : Option String :=
  if truthy itinerary.userId then itinerary.userId
  else if truthy (itineraryDataOf itinerary).userId then (itineraryDataOf itinerary).userId
  else keyFallbackValue itinerary

/-- A record whose stored `userId` differs from its bucket key. -/
def recStale : StoredItinerary :=
  { id := some "itin1", userId := some "stale", timestamp := 7, data := none }

def storeOneUser : ItinStore := [("u1", [("itin1", recStale)])]

/-- The record `getItineraryById` returns from `storeOneUser`: `recStale` with
its `userId` overridden by the bucket key. -/
def recFoundU1 : StoredItinerary :=
  { id := some "itin1", userId := some "u1", timestamp := 7, data := none }

/-- A record stored under the empty-string user key, with no user id anywhere. -/
def recEmptyKey : StoredItinerary :=
  { id := some "itinEK", userId := none, timestamp := 5,
    data := some { basePayload with userId := none } }

def storeEmptyKey : ItinStore := [("", [("itinEK", recEmptyKey)])]

/-! ## Claim C8 — DOCX to PDF conversion (docx2pdf module, test.js part lines 114-233) -/

/-- Status a poll of `getJobStatus` reports: any status other than `done` or
`failed` makes the loop re-poll, so it is modelled as `converting`. -/
inductive JobStatus
  | done
  | failed
  | converting
deriving DecidableEq, Repr

/-- The remote interactions of `convertDocxToPdf`, in order of execution. -/
inductive ConvEffect
  | upload
  | startConversion
  | sleep (ms : Nat)
  | pollStatus (attempt : Nat)
  | download
deriving DecidableEq, Repr

/-- The constant `maxAttempts = 30` (docx2pdf line of the poll loop). -/
def maxAttempts : Nat := 30

/-- The `await sleep(2000)` delay before each poll: the fixed 2-second interval. -/
def pollIntervalMs : Nat := 2000

/-- The `while (attempts < maxAttempts)` poll loop of `convertDocxToPdf`:
increment the attempt counter, sleep the fixed interval, poll; `done` breaks
out successfully, `failed` throws, and on the last permitted attempt a
still-converting job throws the timeout error. Returns the loop outcome and
the recorded sleep and poll effects. -/
def pollLoop (status : Nat → JobStatus) (maxA : Nat) (attempts : Nat) :
    Except ConvError Unit × List ConvEffect :=
  if h : attempts < maxA then
    match status (attempts + 1) with
    | .done => (.ok (), [.sleep pollIntervalMs, .pollStatus (attempts + 1)])
    | .failed => (.error .remoteFailed, [.sleep pollIntervalMs, .pollStatus (attempts + 1)])
    | .converting =>
      if attempts + 1 = maxA then
        (.error .timeout, [.sleep pollIntervalMs, .pollStatus (attempts + 1)])
      else
        let r := pollLoop status maxA (attempts + 1)
        (r.1, [.sleep pollIntervalMs, .pollStatus (attempts + 1)] ++ r.2)
  else (.ok (), [])
termination_by maxA - attempts
decreasing_by omega

/-- JS `String.prototype.endsWith(suffix)`: the character list of `suffix` is a
suffix of the character list of `s`. -/
def endsWithJs (s suffix : String) : Bool := List.isSuffixOf suffix.data s.data

/-- Function `convertDocxToPdf` (docx2pdf module): validate the input file and the output
extension before any remote call, upload, start the conversion job, poll up to
the fixed ceiling, and download the result only after a poll reports `done`.
`inputExists` models `fs.existsSync(inputFilePath)`; `uploadOk` and `startOk`
model the upload response carrying a file entry and the conversion response
carrying a job id; `status` is the remote job status by attempt number. -/
def convertDocxToPdf (inputExists : Bool) (outputFilePath : String)
    (uploadOk startOk : Bool) (status : Nat → JobStatus) :
    Except ConvError Unit × List ConvEffect :=
  if inputExists = false then (.error .inputNotFound, [])
  else if endsWithJs outputFilePath ".pdf" = false then (.error .outputNotPdf, [])
  else if uploadOk = false then (.error .uploadFailed, [.upload])
  else if startOk = false then (.error .startFailed, [.upload, .startConversion])
  else
    let r := pollLoop status maxAttempts 0
    match r.1 with
    | .error e => (.error e, [.upload, .startConversion] ++ r.2)
    | .ok () => (.ok (), [.upload, .startConversion] ++ r.2 ++ [.download])

/-- The sleep-then-poll effect trace for attempts `start, start+1, ...`,
`count` of them. -/
def pollEffects (start count : Nat) : List ConvEffect :=
  match count with
  | 0 => []
  | n + 1 => [.sleep pollIntervalMs, .pollStatus start] ++ pollEffects (start + 1) n

/-! ## Claim C7 — the processing pipeline (engine.js `processItinerary`, lines 20-94) -/

/-- Function `getCompanyInfo` (engine.js lines 138-151): find the user whose id is
`user_<userId>` or `<userId>` and take its company info; absent user or absent
company info both yield `none`, which `processItinerary` turns into an error. -/
def getCompanyInfo (users : List User) (userId : String) : Option CompanyInfo :=
  (users.find? (fun u => u.id == "user_" ++ userId || u.id == userId)).bind
    (fun u => u.companyInfo)

/-- JS `part.replace` deleting whitespace: remove every whitespace character. -/
def removeAllWhitespace (s : String) : String :=
  ⟨s.data.filter (fun c => c.isWhitespace = false)⟩

/-- Step 3 preprocessing of `processItinerary` (engine.js lines 52-58): split the
route on " - ", strip all whitespace from the first segment only (treated as an
airport name), and re-join with " - ". -/
def formatRouteFirstSegment (route : String) : String :=
  String.intercalate " - "
    (mapIdxFrom (fun index part => if index = 0 then removeAllWhitespace part else part)
      0 (route.splitOn " - "))

/-- Filesystem side effects of one pipeline run, in execution order. The
pipeline never writes the itinerary or user stores, so stored state is
unchanged by every run. -/
inductive FsEffect
  | mkdirScreenshots
  | writeScreenshot (p : String)
  | mkdirTemp
  | writeDocx (p : String)
  | writePdf (p : String)
deriving DecidableEq, Repr

/-- The external collaborators and environment of one pipeline run: directory
existence, the screenshot service, the template and renderer, and the remote
conversion service (upload and job-start success, job status by attempt), plus
the locale date renderer used by the formatting step. -/
structure Collaborators where
  screenshotsDirExists : Bool
  tempDirExists : Bool
  captureOk : Bool
  templateExists : Bool
  renderOk : Bool
  uploadOk : Bool
  convertStartOk : Bool
  jobStatus : Nat → JobStatus
  fmt : Int → String

/-- The success value of `processItinerary` (engine.js lines 83-89). -/
structure PipelineResult where
  itinerary : FormattedData
  documentPath : String
  docxPath : String
  screenshotPath : String
deriving DecidableEq, Repr

/-- Function `processItinerary` (engine.js lines 20-94): resolve the itinerary, validate
the payload, resolve the user and company info, encode the route and fetch the
map screenshot, format the document data, render the DOCX and convert it to
PDF. Every step fails fast; the recorded filesystem effects of aborted runs
stop at the failing step. -/
def processItinerary (collab : Collaborators) (store : ItinStore) (users : List User)
    (itineraryId : String) : Except PipelineError PipelineResult × List FsEffect :=
  match getItineraryById store itineraryId with
  | none => (.error (.notFound itineraryId), [])
  | some itinerary =>
    let itineraryData := itineraryDataOf itinerary
    match validateItineraryData itineraryId itineraryData with
    | .error e => (.error e, [])
    | .ok () =>
      if truthy (resolveUserId itinerary) = false then
        (.error (.noUserId itineraryId), [])
      else
        let userId := (resolveUserId itinerary).getD ""
        match getCompanyInfo users userId with
        | none => (.error (.noCompanyInfo userId), [])
        | some companyInfo =>
          let formattedRoute := formatRouteFirstSegment (itineraryData.route.getD "")
          match encodeRoute formattedRoute with
          | .error e => (.error e, [])
          | .ok _encoded =>
            let mkdirSS : List FsEffect :=
              if collab.screenshotsDirExists then [] else [.mkdirScreenshots]
            if collab.captureOk = false then
              (.error .screenshotFailed, mkdirSS)
            else
              let screenshotPath := itineraryId ++ ".jpg"
              let effs₁ := mkdirSS ++ [FsEffect.writeScreenshot screenshotPath]
              let formattedData :=
                formatItineraryData collab.fmt itineraryData companyInfo screenshotPath
              let docxPath := itineraryId ++ ".docx"
              let pdfPath := itineraryId ++ ".pdf"
              let mkdirT : List FsEffect :=
                if collab.tempDirExists then [] else [.mkdirTemp]
              if collab.templateExists = false then
                (.error .templateNotFound, effs₁ ++ mkdirT)
              else if collab.renderOk = false then
                (.error .renderFailed, effs₁ ++ mkdirT)
              else
                let effs₂ := effs₁ ++ mkdirT ++ [FsEffect.writeDocx docxPath]
                match (convertDocxToPdf true pdfPath collab.uploadOk collab.convertStartOk
                    collab.jobStatus).1 with
                | .error e => (.error (.conversionFailed e), effs₂)
                | .ok () =>
                  (.ok { itinerary := formattedData, documentPath := pdfPath,
                         docxPath := docxPath, screenshotPath := screenshotPath },
                   effs₂ ++ [FsEffect.writePdf pdfPath])

/-- A fully-operational collaborator bundle for concrete runs. -/
def collabStub : Collaborators :=
  { screenshotsDirExists := false, tempDirExists := false, captureOk := true,
    templateExists := true, renderOk := true, uploadOk := true,
    convertStartOk := true, jobStatus := fun _ => .done, fmt := fmtStub }

theorem dropWhile_length_le {α : Type} (p : α → Bool) :
    ∀ l : List α, (l.dropWhile p).length ≤ l.length
  | [] => Nat.le_refl _
  | a :: l => by
    simp only [List.dropWhile_cons]
    split
    · exact Nat.le_succ_of_le (dropWhile_length_le p l)
    · exact Nat.le_refl _

theorem matchHyphenRun_length {cs rest : List Char}
    (h : matchHyphenRun cs = some rest) : rest.length < cs.length := by
  unfold matchHyphenRun at h
  split at h
  case _ tl hd =>
    simp only [Option.some.injEq] at h
    subst h
    calc (tl.dropWhile Char.isWhitespace).length
        ≤ tl.length := dropWhile_length_le _ _
      _ < ('-' :: tl).length := by simp
      _ = (cs.dropWhile Char.isWhitespace).length := by rw [hd]
      _ ≤ cs.length := dropWhile_length_le _ _
  case _ => exact absurd h (by simp)

theorem mapIdxFrom_length {α β : Type} (f : Nat → α → β) :
    ∀ (i : Nat) (l : List α), (mapIdxFrom f i l).length = l.length
  | _, [] => rfl
  | i, _ :: as => by simp [mapIdxFrom, mapIdxFrom_length f (i + 1) as]

theorem mapIdxFrom_get? {α β : Type} (f : Nat → α → β) :
    ∀ (i j : Nat) (l : List α), (mapIdxFrom f i l).get? j = (l.get? j).map (f (i + j))
  | _, _, [] => by simp [mapIdxFrom]
  | i, 0, a :: as => by simp [mapIdxFrom]
  | i, j + 1, a :: as => by
    simp only [mapIdxFrom, List.get?_cons_succ]
    rw [mapIdxFrom_get? f (i + 1) j as]
    simp only [Nat.add_comm, Nat.add_left_comm, Nat.add_assoc]

/-! ## Claim C1 — route encoding mini-language -/

/-- C1 counterexample: the two-place route "A - B" does not encode to
`&start;A&end;B` as the claim states; the code's template keeps the `&`
separator around the empty middle join, producing `&start;A&&end;B`. -/
theorem routeEncoding_twoPlace_counterexample :
    encodeRoute "A - B" ≠ .ok "&start;A&end;B"
    ∧ encodeRoute "A - B" = .ok "&start;A&&end;B" := by
  exact ⟨by decide, by decide⟩

/-- C1 (amended): a three-place route "Colombo - Akkaraipattu - Matara" encodes to
`&start;Colombo&Akkaraipattu&end;Matara`; a two-place route "A - B" encodes to
`&start;A&&end;B` (the separator before the empty middle join remains); in
general a route whose cleaned form splits into at least two places encodes to
`&start;<first>&<middles joined by &>&end;<last>`; a route with fewer than two
places after splitting fails with a validation error. -/
theorem routeEncoding_spec :
    encodeRoute "Colombo - Akkaraipattu - Matara"
        = .ok "&start;Colombo&Akkaraipattu&end;Matara"
    ∧ encodeRoute "A - B" = .ok "&start;A&&end;B"
    ∧ (∀ route p ps, placesOf route = p :: ps → ps ≠ [] →
        encodeRoute route = .ok ("&start;" ++ p ++ "&" ++ String.intercalate "&" ps.dropLast
          ++ "&end;" ++ ps.getLastD ""))
    ∧ (∀ route, (placesOf route).length < 2 →
        encodeRoute route
          = .error (if route = "" then PipelineError.invalidRouteFormat
                    else PipelineError.routeTooFewPlaces)) := by
  refine ⟨by decide, by decide, ?_, ?_⟩
  · intro route p ps h hps
    by_cases hr : route = ""
    · rw [hr] at h
      have h0 : placesOf "" = [] := rfl
      rw [h0] at h
      exact absurd h (by simp)
    · obtain ⟨q, qs, rfl⟩ := List.exists_cons_of_ne_nil hps
      simp only [encodeRoute, if_neg hr, h]
      rw [if_neg (by simp)]
  · intro route h
    by_cases hr : route = ""
    · subst hr
      rfl
    · simp only [encodeRoute, if_neg hr]
      rw [if_pos h]

/-- Witness for C1's amended theorem at concrete inputs. -/
theorem routeEncoding_spec_witness :
    encodeRoute "X - Y - Z" = .ok ("&start;" ++ "X" ++ "&"
        ++ String.intercalate "&" (["Y", "Z"].dropLast) ++ "&end;" ++ (["Y", "Z"].getLastD ""))
    ∧ encodeRoute "Solo"
        = .error (if "Solo" = "" then PipelineError.invalidRouteFormat
                  else PipelineError.routeTooFewPlaces) :=
  ⟨routeEncoding_spec.2.2.1 "X - Y - Z" "X" ["Y", "Z"] (by decide) (by decide),
   routeEncoding_spec.2.2.2 "Solo" (by decide)⟩

/-! ## Claim C2 — payload validation -/

/-- C2 counterexample: a payload whose daily-plan sequence is the empty array
passes validation, although the claim states validation must fail then
(`!itineraryData.dailyPlans` is false for `[]`, which is truthy in JS). -/
theorem validatePayload_emptyPlans_counterexample :
    validateItineraryData "itinX"
      { id := some "itinX", userId := none, route := some "Colombo - Matara",
        touristName := "T", numberOfTravelers := 2, tourStartDate := 0,
        numberOfDays := 0, coverImage := none, customImage := none,
        dailyPlans := some [] } = .ok () := by decide

/-- C2 (amended): the validation step of `processItinerary` succeeds exactly when
the route is a truthy (non-empty) string and `dailyPlans` is present as an array;
the emptiness of the daily-plan array is not checked, so an empty array passes. -/
theorem validatePayload_spec (itineraryId : String) (d : ItineraryData) :
    validateItineraryData itineraryId d = .ok () ↔
      truthy d.route = true ∧ d.dailyPlans.isSome = true := by
  unfold validateItineraryData
  cases h1 : truthy d.route <;> cases h2 : d.dailyPlans <;> simp [h1, h2]

/-! ## Claim C3 — accommodation table -/

/-- C3 counterexample: `dayNoHotelName` has the overnight-stay flag set and an
empty resolved hotel name, yet it appears in the accommodation table (with an
absent accommodation value), because the filter tests `day.hotel || day.customHotel`
and the string "custom" is itself truthy. The claim says such a day is excluded. -/
theorem aTable_emptyResolvedHotel_counterexample :
    truthy (resolvedHotel dayNoHotelName) = false
    ∧ dayNoHotelName.overnightStay = true
    ∧ (formatItineraryData fmtStub itinNoHotelName ciStub "shot.jpg").aTable
        = [{ aCity := "Kandy", accomodation := none }] := by
  exact ⟨by decide, by decide, by decide⟩

/-- C3 (amended): the accommodation table contains exactly the days whose
overnight-stay flag is set and whose `hotel` or `customHotel` field is truthy.
Every overnight day with a non-empty resolved hotel name is included, but a day
with `hotel` set to "custom" and empty custom text is also included (with an empty
accommodation value), so an empty resolved name does not imply exclusion. -/
theorem aTable_spec (fmt : Int → String) (itin : ItineraryData) (ci : CompanyInfo)
    (sp : String) (plans : List DailyPlan) (hp : itin.dailyPlans = some plans) :
    (∀ d ∈ plans, d.overnightStay = true → truthy (resolvedHotel d) = true →
      ({ aCity := d.place, accomodation := resolvedHotel d } : ATableRow)
        ∈ (formatItineraryData fmt itin ci sp).aTable)
    ∧ (∀ r ∈ (formatItineraryData fmt itin ci sp).aTable, ∃ d ∈ plans,
        d.overnightStay = true ∧ (truthy d.hotel = true ∨ truthy d.customHotel = true)
        ∧ r = { aCity := d.place, accomodation := resolvedHotel d }) := by
  have ha : (formatItineraryData fmt itin ci sp).aTable
      = (plans.filter
          (fun day => day.overnightStay && (truthy day.hotel || truthy day.customHotel))).map
        (fun day => { aCity := day.place, accomodation := resolvedHotel day : ATableRow }) := by
    simp [formatItineraryData, hp]
  constructor
  · intro d hd ho hres
    rw [ha]
    refine List.mem_map.mpr ⟨d, List.mem_filter.mpr ⟨hd, ?_⟩, rfl⟩
    rw [ho]
    unfold resolvedHotel at hres
    by_cases hc : d.hotel = some "custom"
    · rw [if_pos hc] at hres
      simp [hc, hres]
    · rw [if_neg hc] at hres
      simp [hres]
  · intro r hr
    rw [ha] at hr
    obtain ⟨d, hd, rfl⟩ := List.mem_map.mp hr
    obtain ⟨hmem, hpred⟩ := List.mem_filter.mp hd
    have hand := Bool.and_eq_true_iff.mp hpred
    refine ⟨d, hmem, hand.1, ?_, rfl⟩
    exact (Bool.or_eq_true_iff.mp hand.2).elim Or.inl Or.inr

/-- Witness for C3's amended theorem: the overnight day `dayA` (resolved hotel
name "Cinnamon") appears in the accommodation table of `itinTwoDays`. -/
theorem aTable_spec_witness :
    ({ aCity := dayA.place, accomodation := resolvedHotel dayA } : ATableRow)
      ∈ (formatItineraryData fmtStub itinTwoDays ciStub "shot.jpg").aTable :=
  (aTable_spec fmtStub itinTwoDays ciStub "shot.jpg" plansTwo rfl).1 dayA
    (by decide) (by decide) (by decide)

/-! ## Claim C4 — per-day detail sequence -/

/-- C4: for an itinerary whose payload carries `N` daily plans, the per-day detail
sequence has length `N`, and the date rendered into the `i`-th entry's title is
the start date plus `i` days. -/
theorem iDetail_spec (fmt : Int → String) (itin : ItineraryData) (ci : CompanyInfo)
    (sp : String) (plans : List DailyPlan) (hp : itin.dailyPlans = some plans) :
    (formatItineraryData fmt itin ci sp).iDetail.length = plans.length
    ∧ ∀ i d, plans.get? i = some d →
        ∃ e, (formatItineraryData fmt itin ci sp).iDetail.get? i = some e
          ∧ e.iDetailTitle = "Day " ++ toString (i + 1) ++ " – " ++ d.place
              ++ " (" ++ fmt (itin.tourStartDate + (i : Int)) ++ ")" := by
  constructor
  · simp [formatItineraryData, hp, mapIdxFrom_length]
  · intro i d hd
    simp only [formatItineraryData, hp, Option.getD_some]
    rw [mapIdxFrom_get?, hd]
    refine ⟨_, rfl, ?_⟩
    simp

/-- Witness for C4 at the two-day fixture, instantiated at index 0. -/
theorem iDetail_spec_witness :
    (formatItineraryData fmtStub itinTwoDays ciStub "shot.jpg").iDetail.length
        = plansTwo.length
    ∧ ∃ e, (formatItineraryData fmtStub itinTwoDays ciStub "shot.jpg").iDetail.get? 0 = some e
        ∧ e.iDetailTitle = "Day " ++ toString (0 + 1) ++ " – " ++ dayA.place
            ++ " (" ++ fmtStub (itinTwoDays.tourStartDate + ((0 : Nat) : Int)) ++ ")" :=
  ⟨(iDetail_spec fmtStub itinTwoDays ciStub "shot.jpg" plansTwo rfl).1,
   (iDetail_spec fmtStub itinTwoDays ciStub "shot.jpg" plansTwo rfl).2 0 dayA rfl⟩

/-! ## Claim C5 — meal-flag formatting -/

/-- C5: the meal-flag string is a fixed-width triplet with a dash for each absent
meal: all meals present gives "(B/L/D)", all absent gives the all-dash triplet,
breakfast only gives B in the first slot and dashes in the other two, a missing
meals object behaves as all absent, and the string always has width 7. -/
theorem foodSupply_spec :
    foodSupply (some { breakfast := true, lunch := true, dinner := true }) = "(B/L/D)"
    ∧ foodSupply (some { breakfast := false, lunch := false, dinner := false }) = "(-/-/-)"
    ∧ foodSupply (some { breakfast := true, lunch := false, dinner := false }) = "(B/-/-)"
    ∧ foodSupply none = "(-/-/-)"
    ∧ ∀ m : Option Meals, (foodSupply m).length = 7 := by
  refine ⟨by decide, by decide, by decide, by decide, ?_⟩
  intro m
  rcases m with _ | ⟨b, l, d⟩
  · decide
  · cases b <;> cases l <;> cases d <;> decide

/-! ## Claim C6 — total nights -/

/-- C6: for an itinerary with day count at least 1, the total-nights field equals
the day count minus 1, rendered as a decimal string; a day count of 1 yields "0". -/
theorem totalNights_spec (fmt : Int → String) (itin : ItineraryData) (ci : CompanyInfo)
    (sp : String) (h : 1 ≤ itin.numberOfDays) :
    (formatItineraryData fmt itin ci sp).totalNights = toString (itin.numberOfDays - 1)
    ∧ (itin.numberOfDays = 1 → (formatItineraryData fmt itin ci sp).totalNights = "0") := by
  constructor
  · simp [formatItineraryData]
  · intro h1
    simp [formatItineraryData, h1]
    rfl

/-- Witness for C6 at a one-day itinerary. -/
theorem totalNights_spec_witness :
    (formatItineraryData fmtStub itinOneDay ciStub "shot.jpg").totalNights
        = toString (itinOneDay.numberOfDays - 1)
    ∧ (itinOneDay.numberOfDays = 1 →
        (formatItineraryData fmtStub itinOneDay ciStub "shot.jpg").totalNights = "0") :=
  totalNights_spec fmtStub itinOneDay ciStub "shot.jpg" (by decide)

/-- C9: the listing endpoint returns exactly the user's stored itineraries
(a permutation of the user's bucket values) sorted newest first: in the result,
every entry's timestamp is at least the timestamp of every later entry — in
particular every adjacent pair is ordered newest-first. -/
theorem getUserItineraries_sorted (store : ItinStore) (userId : String) :
    List.Sorted tsGE (getUserItineraries store userId)
    ∧ List.Perm (getUserItineraries store userId)
        (((lookupKey userId store).getD []).map Prod.snd) :=
  ⟨List.sorted_insertionSort tsGE _, List.perm_insertionSort tsGE _⟩

theorem findItinInUser_spec (itineraryId userKey : String) :
    ∀ (itins : List (String × StoredItinerary)) (found : StoredItinerary),
      findItinInUser itineraryId userKey itins = some found →
      ∃ itinKey record, (itinKey, record) ∈ itins
        ∧ itinMatches itineraryId itinKey record = true
        ∧ found = { record with userId := some userKey }
  | [], _, h => by simp [findItinInUser] at h
  | (k, record) :: rest, found, h => by
    by_cases hm : itinMatches itineraryId k record = true
    · refine ⟨k, record, List.mem_cons_self _ _, hm, ?_⟩
      rw [findItinInUser, if_pos hm] at h
      exact (Option.some.injEq _ _ ▸ h).symm
    · rw [findItinInUser, if_neg hm] at h
      obtain ⟨itinKey, record₂, hmem, hmatch, heq⟩ :=
        findItinInUser_spec itineraryId userKey rest found h
      exact ⟨itinKey, record₂, List.mem_cons_of_mem _ hmem, hmatch, heq⟩

/-- C10 (amended): a record found by `getItineraryById` comes from some user
bucket of the store, its `userId` field equals that bucket's key — overriding
whatever was stored on the record — and, provided that key is a non-empty
string, the user-id chain of `processItinerary` selects the record field, so
neither the payload field nor the key-naming fallback is consulted. (An
empty-string storage key is falsy in JS, in which case the later alternatives
are reached; see the counterexample.) -/
theorem getItineraryById_userId_override :
    ∀ (store : ItinStore) (itineraryId : String) (found : StoredItinerary),
      getItineraryById store itineraryId = some found →
      ∃ userKey itins itinKey record,
        (userKey, itins) ∈ store ∧ (itinKey, record) ∈ itins
        ∧ itinMatches itineraryId itinKey record = true
        ∧ found = { record with userId := some userKey }
        ∧ (userKey ≠ "" → resolveUserIdSource found = .recordField)
  | [], _, _, h => by simp [getItineraryById] at h
  | (userKey, itins) :: rest, itineraryId, found, h => by
    rw [getItineraryById] at h
    rcases hf : findItinInUser itineraryId userKey itins with _ | r
    · rw [hf] at h
      obtain ⟨uk, its, ik, record, hmemS, hmemI, hmatch, heq, hcond⟩ :=
        getItineraryById_userId_override rest itineraryId found h
      exact ⟨uk, its, ik, record, List.mem_cons_of_mem _ hmemS, hmemI, hmatch, heq, hcond⟩
    · rw [hf] at h
      have hr : r = found := by exact Option.some.injEq _ _ ▸ h
      subst hr
      obtain ⟨itinKey, record, hmemI, hmatch, heq⟩ :=
        findItinInUser_spec itineraryId userKey itins r hf
      refine ⟨userKey, itins, itinKey, record, List.mem_cons_self _ _, hmemI, hmatch, heq, ?_⟩
      intro hk
      rw [heq]
      simp [resolveUserIdSource, truthy, truthyStr, hk]

/-- Witness for C10's amended theorem at a concrete one-user store. -/
theorem getItineraryById_userId_override_witness :
    ∃ userKey itins itinKey record,
      (userKey, itins) ∈ storeOneUser
      ∧ (itinKey, record) ∈ itins
      ∧ itinMatches "itin1" itinKey record = true
      ∧ recFoundU1 = { record with userId := some userKey }
      ∧ (userKey ≠ "" → resolveUserIdSource recFoundU1 = .recordField) := by
  have h := getItineraryById_userId_override storeOneUser "itin1" recFoundU1 (by decide)
  obtain ⟨uk, its, ik, record, hmemS, hmemI, hmatch, heq, hcond⟩ := h
  exact ⟨uk, its, ik, record, hmemS, hmemI, hmatch, heq, hcond⟩

/-- C10 counterexample: under an empty-string storage key the returned record's
`userId` is `""`, which is falsy, so the user-id chain of `processItinerary`
does fall through to the key-naming fallback — the claim's "never reached" part
fails for such a store (the override of the claim's first part still holds). -/
theorem getItineraryById_emptyKey_counterexample :
    (getItineraryById storeEmptyKey "itinEK").map (fun r => r.userId) = some (some "")
    ∧ (getItineraryById storeEmptyKey "itinEK").map resolveUserIdSource
        = some .keyFallback := by
  exact ⟨by decide, by decide⟩

theorem pollLoop_timeout (status : Nat → JobStatus) :
    ∀ (n maxA a : Nat), maxA - a = n → 0 < n →
      (∀ k, a < k → k ≤ maxA → status k = .converting) →
      pollLoop status maxA a = (.error .timeout, pollEffects (a + 1) n)
  | 0, _, _, _, h0, _ => absurd h0 (by omega)
  | n + 1, maxA, a, hn, _, hs => by
    have ha : a < maxA := by omega
    have hst : status (a + 1) = .converting := hs (a + 1) (by omega) (by omega)
    rw [pollLoop, dif_pos ha, hst]
    by_cases hlast : a + 1 = maxA
    · rw [if_pos hlast]
      have : n = 0 := by omega
      subst this
      rfl
    · rw [if_neg hlast]
      have hrec := pollLoop_timeout status n maxA (a + 1) (by omega) (by omega)
        (fun k hk1 hk2 => hs k (by omega) hk2)
      rw [hrec]
      rfl

theorem pollLoop_failed (status : Nat → JobStatus) :
    ∀ (n maxA a j : Nat), j - a = n → a < j → j ≤ maxA → status j = .failed →
      (∀ k, a < k → k < j → status k = .converting) →
      pollLoop status maxA a = (.error .remoteFailed, pollEffects (a + 1) n)
  | 0, _, a, j, hn, hlt, _, _, _ => absurd hlt (by omega)
  | n + 1, maxA, a, j, hn, hlt, hle, hj, hs => by
    have ha : a < maxA := by omega
    rw [pollLoop, dif_pos ha]
    by_cases hfirst : j = a + 1
    · subst hfirst
      rw [hj]
      have : n = 0 := by omega
      subst this
      rfl
    · have hst : status (a + 1) = .converting := hs (a + 1) (by omega) (by omega)
      rw [hst]
      have hlast : ¬(a + 1 = maxA) := by omega
      rw [if_neg hlast]
      have hrec := pollLoop_failed status n maxA (a + 1) j (by omega) (by omega) hle hj
        (fun k hk1 hk2 => hs k (by omega) hk2)
      rw [hrec]
      rfl

theorem pollLoop_done (status : Nat → JobStatus) :
    ∀ (n maxA a j : Nat), j - a = n → a < j → j ≤ maxA → status j = .done →
      (∀ k, a < k → k < j → status k = .converting) →
      pollLoop status maxA a = (.ok (), pollEffects (a + 1) n)
  | 0, _, a, j, hn, hlt, _, _, _ => absurd hlt (by omega)
  | n + 1, maxA, a, j, hn, hlt, hle, hj, hs => by
    have ha : a < maxA := by omega
    rw [pollLoop, dif_pos ha]
    by_cases hfirst : j = a + 1
    · subst hfirst
      rw [hj]
      have : n = 0 := by omega
      subst this
      rfl
    · have hst : status (a + 1) = .converting := hs (a + 1) (by omega) (by omega)
      rw [hst]
      have hlast : ¬(a + 1 = maxA) := by omega
      rw [if_neg hlast]
      have hrec := pollLoop_done status n maxA (a + 1) j (by omega) (by omega) hle hj
        (fun k hk1 hk2 => hs k (by omega) hk2)
      rw [hrec]
      rfl

/-- C8: with the input file present, `convertDocxToPdf`
(i) fails with the validation error before any remote interaction when the
output path does not end in ".pdf";
and otherwise, polling at the fixed 2-second interval,
(ii) fails with the timeout error after exactly `maxAttempts` (30) sleep-poll
rounds when every poll up to the ceiling reports the job still converting;
(iii) fails with the remote-failure error as soon as a poll reports `failed`
(after exactly that many sleep-poll rounds, with no download);
(iv) succeeds and downloads only after a poll reports `done`. -/
theorem convertDocxToPdf_spec (out : String) (status : Nat → JobStatus) :
    (endsWithJs out ".pdf" = false → ∀ uploadOk startOk,
      convertDocxToPdf true out uploadOk startOk status = (.error .outputNotPdf, []))
    ∧ (endsWithJs out ".pdf" = true →
      ((∀ k, 1 ≤ k → k ≤ maxAttempts → status k = .converting) →
        convertDocxToPdf true out true true status
          = (.error .timeout, [.upload, .startConversion] ++ pollEffects 1 maxAttempts))
      ∧ (∀ j, 1 ≤ j → j ≤ maxAttempts → status j = .failed →
          (∀ k, 1 ≤ k → k < j → status k = .converting) →
          convertDocxToPdf true out true true status
            = (.error .remoteFailed, [.upload, .startConversion] ++ pollEffects 1 j))
      ∧ (∀ j, 1 ≤ j → j ≤ maxAttempts → status j = .done →
          (∀ k, 1 ≤ k → k < j → status k = .converting) →
          convertDocxToPdf true out true true status
            = (.ok (), [.upload, .startConversion] ++ pollEffects 1 j ++ [.download]))) := by
  constructor
  · intro hpdf uploadOk startOk
    unfold convertDocxToPdf
    rw [if_neg (by simp), if_pos hpdf]
  · intro hpdf
    refine ⟨?_, ?_, ?_⟩
    · intro hs
      unfold convertDocxToPdf
      rw [if_neg (by simp), if_neg (by simp [hpdf]), if_neg (by simp), if_neg (by simp)]
      rw [pollLoop_timeout status maxAttempts maxAttempts 0 (by omega) (by decide)
        (fun k hk1 hk2 => hs k hk1 hk2)]
    · intro j hj1 hj2 hj hs
      unfold convertDocxToPdf
      rw [if_neg (by simp), if_neg (by simp [hpdf]), if_neg (by simp), if_neg (by simp)]
      rw [pollLoop_failed status j maxAttempts 0 j (by omega) (by omega) hj2 hj
        (fun k hk1 hk2 => hs k hk1 hk2)]
    · intro j hj1 hj2 hj hs
      unfold convertDocxToPdf
      rw [if_neg (by simp), if_neg (by simp [hpdf]), if_neg (by simp), if_neg (by simp)]
      rw [pollLoop_done status j maxAttempts 0 j (by omega) (by omega) hj2 hj
        (fun k hk1 hk2 => hs k hk1 hk2)]

/-- Witness for C8 at concrete output paths and status oracles. -/
theorem convertDocxToPdf_spec_witness :
    convertDocxToPdf true "out.txt" true true (fun _ => .converting)
        = (.error .outputNotPdf, [])
    ∧ convertDocxToPdf true "out.pdf" true true (fun _ => .converting)
        = (.error .timeout, [.upload, .startConversion] ++ pollEffects 1 maxAttempts)
    ∧ convertDocxToPdf true "out.pdf" true true (fun _ => .failed)
        = (.error .remoteFailed, [.upload, .startConversion] ++ pollEffects 1 1)
    ∧ convertDocxToPdf true "out.pdf" true true (fun _ => .done)
        = (.ok (), [.upload, .startConversion] ++ pollEffects 1 1 ++ [.download]) :=
  ⟨(convertDocxToPdf_spec "out.txt" (fun _ => .converting)).1 (by decide) true true,
   ((convertDocxToPdf_spec "out.pdf" (fun _ => .converting)).2 (by decide)).1
     (fun _ _ _ => rfl),
   ((convertDocxToPdf_spec "out.pdf" (fun _ => .failed)).2 (by decide)).2.1 1
     (by decide) (by decide) rfl (fun k h1 h2 => absurd (Nat.lt_of_le_of_lt h1 h2) (by omega)),
   ((convertDocxToPdf_spec "out.pdf" (fun _ => .done)).2 (by decide)).2.2 1
     (by decide) (by decide) rfl (fun k h1 h2 => absurd (Nat.lt_of_le_of_lt h1 h2) (by omega))⟩

/-- C7: when no stored itinerary matches the identifier, the pipeline fails with
the not-found error at its first step and records no filesystem effects at all:
no screenshot file, no temp directory, no DOCX and no PDF; the stores are never
written by the pipeline in any case. -/
theorem processItinerary_notFound (collab : Collaborators) (store : ItinStore)
    (users : List User) (itineraryId : String)
    (h : getItineraryById store itineraryId = none) :
    processItinerary collab store users itineraryId
      = (.error (.notFound itineraryId), []) := by
  unfold processItinerary
  rw [h]

/-- Witness for C7: the empty store holds no itinerary, so processing any id
fails with the not-found error and produces no effects. -/
theorem processItinerary_notFound_witness :
    processItinerary collabStub [] [] "itin_missing"
      = (.error (.notFound "itin_missing"), []) :=
  processItinerary_notFound collabStub [] [] "itin_missing" rfl
